import Mathlib

/-!
Verification of the usage-logging middleware of `ai-sdk-usage-insights`
(`src/usage-logger.ts`) against its natural-language specification.

The embedding models JavaScript values as the inductive `JVal`.  A plain
JS property access `x.k` (which throws a `TypeError` when the receiver is
`null`/`undefined`) is modelled by `jsGetE` in the `Except JVal` monad;
an optional-chaining access `x?.k` is total and modelled by `jsGetOpt`.
The JS nullish-coalescing operator `??` is `nn`, logical-or `||` is
`jsOr`.  Numbers are modelled as integers (`Int`): the code only does
arithmetic on token counts.  Wall-clock concerns (`new Date()`,
`Date.now()`) are outside the model; latencies are passed in as explicit
parameters and the `timestamp` column is omitted from the modelled row.
-/

/-- Model of a JavaScript runtime value, as far as the logger inspects
them: `null`, `undefined`, booleans, (integer) numbers, strings, arrays
and plain objects (ordered field lists, first occurrence wins on
lookup). -/
inductive JVal where
  | null : JVal
  | undefined : JVal
  | bool : Bool → JVal
  | num : Int → JVal
  | str : String → JVal
  | arr : List JVal → JVal
  | obj : List (String × JVal) → JVal
deriving Repr

/-- JS nullish test: `x == null`, true exactly for `null` and `undefined`. -/
def JVal.isNullish : JVal → Bool
  | .null => true
  | .undefined => true
  | _ => false

/-- JS truthiness: everything is truthy except `null`, `undefined`,
`false`, `0` and the empty string. -/
def JVal.truthy : JVal → Bool
  | .null => false
  | .undefined => false
  | .bool b => b
  | .num n => n != 0
  | .str s => s ≠ ""
  | _ => true

/-- First-match lookup in an object field list. -/
def lookupField (fs : List (String × JVal)) (k : String) : JVal :=
  match fs.find? (fun p => p.1 == k) with
  | some p => p.2
  | none => .undefined

/-- Optional-chaining property access `v?.k`; total.  On a
non-object (including `null`/`undefined`) the result is `undefined`. -/
def jsGetOpt (v : JVal) (k : String) : JVal :=
  match v with
  | .obj fs => lookupField fs k
  | _ => .undefined

/-- The error object thrown by a JS `TypeError` on property access of a
nullish receiver. -/
def typeErrorVal (k : String) : JVal :=
  .obj [("message", .str ("TypeError: cannot read property " ++ k ++ " of nullish value"))]

/-- Plain property access `v.k`: throws a `TypeError` when `v` is
nullish, otherwise behaves like `v?.k`. -/
def jsGetE (v : JVal) (k : String) : Except JVal JVal :=
  if v.isNullish then .error (typeErrorVal k) else .ok (jsGetOpt v k)

/-- Plain index access `v[i]`: throws on a nullish receiver, reads the
element (or `undefined`) on an array. -/
def jsIndexE (v : JVal) (i : Nat) : Except JVal JVal :=
  if v.isNullish then .error (typeErrorVal (toString i))
  else .ok (match v with
    | .arr xs => (xs.get? i).getD .undefined
    | .obj fs => lookupField fs (toString i)
    | _ => .undefined)

/-- JS nullish coalescing `a ?? b`. -/
def nn (a b : JVal) : JVal :=
  if a.isNullish then b else a

/-- JS logical or `a || b`. -/
def jsOr (a b : JVal) : JVal :=
  if a.truthy then a else b

/-- JS `+` as used by `normUsage` on token counts: integer addition; the
string/string case is string concatenation.  Other coercions do not
occur on the values the logger adds. -/
def jsAdd : JVal → JVal → JVal
  | .num a, .num b => .num (a + b)
  | .str a, .str b => .str (a ++ b)
  | _, _ => .undefined

/-! ### String coercion (template literals, `String(...)`, array `join`) -/

mutual
/-- JS string coercion (`String(v)`, template-literal interpolation). -/
def jsToString : JVal → String
  | .str s => s
  | .num n => toString n
  | .bool true => "true"
  | .bool false => "false"
  | .null => "null"
  | .undefined => "undefined"
  | .arr xs => jsArrToString xs
  | .obj _ => "[object Object]"

/-- Array-to-string coercion: elements joined by commas, with nullish
elements rendered as the empty string (JS `Array.prototype.toString`). -/
def jsArrToString : List JVal → String
  | [] => ""
  | v :: vs =>
    let s := match v with
      | .null => ""
      | .undefined => ""
      | w => jsToString w
    match vs with
    | [] => s
    | _ => s ++ "," ++ jsArrToString vs
end

/-- `Array.prototype.join(sep)`: nullish elements render empty. -/
def jsJoin (sep : String) (xs : List JVal) : String :=
  String.intercalate sep (xs.map (fun v =>
    match v with
    | .null => ""
    | .undefined => ""
    | w => jsToString w))

/-! ### `JSON.stringify` (as far as the logger exercises it) -/

/-- Escape of string bodies for JSON output (quote and backslash; other
escapes are not exercised by the logger inputs modelled here). -/
def jsonEscape (s : String) : String :=
  String.join (s.toList.map (fun c =>
    if c = '\"' then "\\\"" else if c = '\\' then "\\\\" else c.toString))

mutual
/-- `JSON.stringify`: `none` models the `undefined` result (stringifying
`undefined` itself). -/
def jsonStr : JVal → Option String
  | .undefined => none
  | .null => some "null"
  | .bool true => some "true"
  | .bool false => some "false"
  | .num n => some (toString n)
  | .str s => some ("\"" ++ jsonEscape s ++ "\"")
  | .arr xs => some ("[" ++ jsonArr xs ++ "]")
  | .obj fs => some ("\x7b" ++ jsonObj fs ++ "\x7d")

/-- Array elements: `undefined` members serialize as `null`. -/
def jsonArr : List JVal → String
  | [] => ""
  | v :: vs =>
    let s := (jsonStr v).getD "null"
    match vs with
    | [] => s
    | _ => s ++ "," ++ jsonArr vs

/-- Object members: fields whose value stringifies to `undefined` are
omitted. -/
def jsonObj : List (String × JVal) → String
  | [] => ""
  | (k, v) :: fs =>
    match jsonStr v with
    | none => jsonObj fs
    | some sv =>
      let s := "\"" ++ jsonEscape k ++ "\":" ++ sv
      match fs with
      | [] => s
      | _ =>
        match jsonObj fs with
        | "" => s
        | rest => s ++ "," ++ rest
end

/-- `JSON.stringify(v)` as a `JVal` (so that `??` can see the
`undefined` case), used in `c?.text ?? JSON.stringify(c)`. -/
def jsonStrV (v : JVal) : JVal :=
  match jsonStr v with
  | some s => .str s
  | none => .undefined

/-! ### Small shape discriminators used by the source's guards -/

/-- `chunk?.type === t` (strict string comparison). -/
def isType (c : JVal) (t : String) : Bool :=
  match jsGetOpt c "type" with
  | .str s => s == t
  | _ => false

/-- `Array.isArray(v)`. -/
def isArr : JVal → Bool
  | .arr _ => true
  | _ => false

/-- `typeof v === 'string'`. -/
def isStrV : JVal → Bool
  | .str _ => true
  | _ => false

/-- `typeof v === 'boolean'`. -/
def isBoolV : JVal → Bool
  | .bool _ => true
  | _ => false

/-- `typeof v === 'object'` (true for objects, arrays and `null`). -/
def typeofIsObject : JVal → Bool
  | .obj _ => true
  | .arr _ => true
  | .null => true
  | _ => false

def asArr : JVal → List JVal
  | .arr xs => xs
  | _ => []

def asStr : JVal → String
  | .str s => s
  | _ => ""

/-! ### `normUsage` (usage-logger.ts lines 32-59) -/

/-- The canonical usage tuple returned by `normUsage`. -/
structure UsageT where
  inputTokens : JVal
  outputTokens : JVal
  totalTokens : JVal
  cachedInputTokens : JVal
  reasoningTokens : JVal
  outputReasoningTokens : JVal
deriving Repr

/-- `normUsage(u, bodyUsage)`: reconciles the normalized SDK usage
object and the raw response-body usage object into the canonical tuple,
field by field via `??` chains (see source lines 32-59). -/
def normUsage (u bodyUsage : JVal) : UsageT :=
  let inputTokens :=
    nn (jsGetOpt u "inputTokens") (nn (jsGetOpt u "promptTokens")
      (nn (jsGetOpt bodyUsage "input_tokens") .null))
  let outputTokens :=
    nn (jsGetOpt u "outputTokens") (nn (jsGetOpt u "completionTokens")
      (nn (jsGetOpt bodyUsage "output_tokens") .null))
  let totalTokens :=
    nn (jsGetOpt u "totalTokens") (nn (jsGetOpt bodyUsage "total_tokens")
      (if !inputTokens.isNullish && !outputTokens.isNullish
        then jsAdd inputTokens outputTokens else .null))
  let cachedInputTokens :=
    nn (jsGetOpt u "cachedInputTokens")
      (nn (jsGetOpt (jsGetOpt bodyUsage "input_tokens_details") "cached_tokens") .null)
  let reasoningTokens :=
    nn (jsGetOpt u "reasoningTokens") .null
  let outputReasoningTokens :=
    nn (jsGetOpt (jsGetOpt bodyUsage "output_tokens_details") "reasoning_tokens")
      (nn (jsGetOpt u "reasoningTokens") .null)
  { inputTokens, outputTokens, totalTokens, cachedInputTokens,
    reasoningTokens, outputReasoningTokens }

/-! ### Field extraction helpers (`usage-logger.ts` lines 23-171)

Each extractor is written in the `Except JVal` monad so that every plain
JS property access (`jsGetE`, which throws on a nullish receiver) is
visible; optional-chained accesses use the total `jsGetOpt`.  A plain
access that is syntactically guarded in the source (the receiver was
just checked non-nullish) is still modelled with `jsGetE` where
reachable throws matter, and with `jsGetOpt` plus a comment where the
guard makes the two coincide. -/

/-- Is this `Except` a thrown exception? -/
def isThrow {α : Type} : Except JVal α → Bool
  | .error _ => true
  | .ok _ => false

/-- `extractTags` (lines 23-29): reads caller tags from
`params?.providerOptions?.usageLogger ?? params?.providerMetadata?.usageLogger`;
absent tags yield `undefined`, a non-array value is coerced to a
one-element string array.  The plain access `opt.tags` is guarded by the
truthiness of `opt?.tags`. -/
def extractTags (params : JVal) : Except JVal JVal :=
  let opt := nn (jsGetOpt (jsGetOpt params "providerOptions") "usageLogger")
    (jsGetOpt (jsGetOpt params "providerMetadata") "usageLogger")
  if (jsGetOpt opt "tags").truthy = false then .ok .undefined
  else
    match jsGetE opt "tags" with
    | .error e => .error e
    | .ok tags => .ok (if isArr tags then tags else .arr [.str (jsToString tags)])

/-- `(v).toUpperCase()` on the result of `m.role || 'message'`: succeeds
on strings, throws a `TypeError` on any other (truthy) value. -/
def toUpperCaseE (v : JVal) : Except JVal String :=
  match v with
  | .str s => .ok s.toUpper
  | _ => .error (typeErrorVal "toUpperCase")

/-- One message of `collapseInputTextFromPromptArray` (lines 64-70):
`[ROLE] content`, where the plain accesses `m.role` / `m.content` throw
on a nullish array entry. -/
def renderMsg (m : JVal) : Except JVal String := do
  let r ← jsGetE m "role"
  let role ← toUpperCaseE (jsOr r (.str "message"))
  let cv ← jsGetE m "content"
  let content :=
    if isArr cv then
      jsJoin " " ((asArr cv).map (fun c => nn (jsGetOpt c "text") (jsonStrV c)))
    else jsToString (nn cv (.str ""))
  return ("[" ++ role ++ "] " ++ content)

/-- `collapseInputTextFromPromptArray` (lines 62-72): messages rendered
and joined by newlines. -/
def renderMsgs (ms : List JVal) : Except JVal String := do
  let ss ← ms.mapM renderMsg
  return String.intercalate "\n" ss

/-- One entry of the `request.body.input` fallback (lines 92-96):
`[ROLE] JSON.stringify(m.content)`. -/
def renderInputMsg (m : JVal) : Except JVal String := do
  let r ← jsGetE m "role"
  let role ← toUpperCaseE (jsOr r (.str "message"))
  let cv ← jsGetE m "content"
  let s := match jsonStr cv with
    | some t => t
    | none => "undefined"
  return ("[" ++ role ++ "] " ++ s)

def renderInputs (ms : List JVal) : Except JVal String := do
  let ss ← ms.mapM renderInputMsg
  return String.intercalate "\n" ss

/-- `params?.system ? "\n[SYSTEM]\n" + params.system + "\n" : ""`; the
plain access is guarded by the truthiness check, so it is modelled with
the total lookup. -/
def sysBlock (params : JVal) : String :=
  if (jsGetOpt params "system").truthy then
    "\n[SYSTEM]\n" ++ jsToString (jsGetOpt params "system") ++ "\n"
  else ""

/-- `collapseInputText` (lines 74-99): four prioritized renderings of
the request input (prompt array, messages array, prompt string,
raw-body `input` echo), else `undefined`. -/
def collapseInputText (params requestBody : JVal) : Except JVal JVal :=
  if isArr (jsGetOpt params "prompt") then
    (renderMsgs (asArr (jsGetOpt params "prompt"))).map (fun s => .str s)
  else if isArr (jsGetOpt params "messages") then
    (renderMsgs (asArr (jsGetOpt params "messages"))).map
      (fun s => .str (sysBlock params ++ s))
  else if isStrV (jsGetOpt params "prompt") then
    .ok (.str (sysBlock params ++ "[PROMPT]\n" ++ asStr (jsGetOpt params "prompt")))
  else if isArr (jsGetOpt requestBody "input") then
    (renderInputs (asArr (jsGetOpt requestBody "input"))).map (fun s => .str s)
  else .ok .undefined

/-- The `content`-array fallback of `extractTextFromResult` (lines
108-113): text of the entries with `c?.type === 'text'` and a string
`c.text` (the plain access is guarded by the type check). -/
def textParts (cs : List JVal) : List String :=
  cs.filterMap (fun c =>
    if isType c "text" then
      match jsGetOpt c "text" with
      | .str s => some s
      | _ => none
    else none)

def extractTextFromResultContent (result : JVal) : Except JVal JVal :=
  match jsGetOpt result "content" with
  | .arr cs =>
    let parts := textParts cs
    if parts.length > 0 then .ok (.str (String.join parts)) else .ok .undefined
  | _ => .ok .undefined

/-- `extractTextFromResult` (lines 103-115): prefers a non-empty
top-level `result.text` string, falls back to joining the text entries
of `result.content`.  The plain access `result.text` is guarded by
`typeof result?.text === 'string'`. -/
def extractTextFromResult (result : JVal) : Except JVal JVal :=
  if isStrV (jsGetOpt result "text") then
    match jsGetE result "text" with
    | .error e => .error e
    | .ok t => if (asStr t).length > 0 then .ok t else extractTextFromResultContent result
  else extractTextFromResultContent result

/-- `extractTextFromResponseBody` (lines 117-125): returns
`(text, reasoningText)` from `body.choices[0].message`; every step after
the falsiness guard is a plain access and can throw. -/
def extractTextFromResponseBody (body : JVal) : Except JVal (JVal × JVal) := do
  if body.truthy = false then return (.undefined, .undefined)
  let choices ← jsGetE body "choices"
  let c0 ← jsIndexE choices 0
  let outputs ← jsGetE c0 "message"
  let text ← jsGetE outputs "content"
  let reasoningText ← jsGetE outputs "reasoning_content"
  return (text, reasoningText)

/-- Result record of `extractToolMeta`. -/
structure ToolMeta where
  requestToolsJson : JVal
  responseToolsJson : JVal
  toolNames : JVal
  toolCount : JVal
  parallelToolCalls : JVal
deriving Repr

/-- `extractToolMeta` (lines 128-153): request/response tool metadata.
All property accesses in the source are optional-chained and the array
operations are guarded by `Array.isArray`, so the function never
throws. -/
def extractToolMeta (params result body : JVal) : Except JVal ToolMeta :=
  let requestTools := nn (jsGetOpt params "tools")
    (jsGetOpt (jsGetOpt (jsGetOpt result "request") "body") "tools")
  let responseTools := jsGetOpt body "tools"
  let toolNames : List JVal :=
    match requestTools with
    | .arr ts => (ts.map (fun t => jsGetOpt t "name")).filter JVal.truthy
    | _ => []
  let toolCount : JVal :=
    match responseTools with
    | .arr rs => .num rs.length
    | _ =>
      match requestTools with
      | .arr ts => .num ts.length
      | _ => .null
  let ptc : JVal :=
    match jsGetOpt body "parallel_tool_calls" with
    | .bool b => .bool b
    | _ => .null
  .ok { requestToolsJson := nn requestTools .null
        responseToolsJson := nn responseTools .null
        toolNames := if toolNames.isEmpty then .null else .arr toolNames
        toolCount := toolCount
        parallelToolCalls := ptc }

/-- Result record of `pickNumericParams`. -/
structure NumParams where
  temperature : JVal
  topP : JVal
  maxOutputTokens : JVal
deriving Repr

/-- `pickNumericParams` (lines 156-171): sampling parameters, with the
odd third `temperature` operand `(typeof body?.text === 'object' &&
body?.temperature)` and the boolean-to-null correction.  Only
optional-chained accesses occur, so the function never throws. -/
def pickNumericParams (params body : JVal) : Except JVal NumParams :=
  let t3 : JVal :=
    if typeofIsObject (jsGetOpt body "text") then jsGetOpt body "temperature"
    else .bool false
  let t0 := nn (jsGetOpt params "temperature")
    (nn (jsGetOpt body "temperature") (nn t3 .null))
  let temperature := if isBoolV t0 then .null else t0
  .ok { temperature := temperature
        topP := nn (jsGetOpt params "topP") (nn (jsGetOpt body "top_p") .null)
        maxOutputTokens := nn (jsGetOpt params "maxOutputTokens")
          (nn (jsGetOpt body "max_output_tokens") .null) }

/-! ### The persisted row (`LLMCallRow`, cf. `types.ts`)

The `timestamp` column (`new Date()`) is wall-clock and outside the
model; latency is threaded as an explicit parameter. -/

structure LLMCallRow where
  modelId : JVal
  tags : JVal
  inputText : JVal
  inputJson : JVal
  promptJson : JVal
  outputText : JVal
  outputJson : JVal
  contentJson : JVal
  reasoningText : JVal
  reasoningJson : JVal
  inputTokens : JVal
  outputTokens : JVal
  totalTokens : JVal
  cachedInputTokens : JVal
  reasoningTokens : JVal
  outputReasoningTokens : JVal
  requestToolsJson : JVal
  responseToolsJson : JVal
  toolCount : JVal
  toolNames : JVal
  parallelToolCalls : JVal
  temperature : JVal
  topP : JVal
  maxOutputTokens : JVal
  finishReason : JVal
  latencyMs : JVal
  warnings : JVal
  requestId : JVal
  responseId : JVal
  headersJson : JVal
  meta : JVal
  error : JVal
deriving Repr

/-- A sink whose `save` always succeeds. -/
def saveOk : LLMCallRow → Except JVal Unit := fun _ => .ok ()

/-- A sink whose `save` always rejects with `e`. -/
def saveFailWith (e : JVal) : LLMCallRow → Except JVal Unit := fun _ => .error e

/-! ### One-shot path: `wrapGenerate` (lines 181-303) -/

/-- The plain chain `result.request.body.model` of line 216: every step
throws on a nullish receiver. -/
def chainResultModel (result : JVal) : Except JVal JVal := do
  let req ← jsGetE result "request"
  let b ← jsGetE req "body"
  jsGetE b "model"

/-- `reasoningJson` of the success row (lines 227-228). -/
def reasoningJsonOf (result : JVal) : JVal :=
  match jsGetOpt result "content" with
  | .arr cs => .arr (cs.filter (fun c => isType c "reasoning"))
  | _ => .null

/-- The success row of `wrapGenerate` (lines 186-253), built after the
underlying call returned `result`.  Sub-extractions that can throw are
sequenced in source order; a throw here lands in the `catch` block. -/
def buildSuccessRow (params result tags : JVal) (lat : Int) :
    Except JVal LLMCallRow := do
  let body := jsGetOpt (jsGetOpt result "response") "body"
  let bodyUsage := jsGetOpt body "usage"
  let inputText ← collapseInputText params (jsGetOpt (jsGetOpt result "request") "body")
  let promptJson := nn (jsGetOpt params "prompt") .null
  let inputJson := nn (jsGetOpt (jsGetOpt result "request") "body")
    (nn (jsGetOpt result "request") params)
  let outputText0 ← extractTextFromResult result
  let fb ← extractTextFromResponseBody body
  let outputText := nn outputText0 fb.1
  let reasoningText := fb.2
  let contentJson := nn (jsGetOpt result "content") .null
  let usage := normUsage (jsGetOpt result "usage") bodyUsage
  let tools ← extractToolMeta params result body
  let picked ← pickNumericParams params body
  let m ← chainResultModel result
  return { modelId := nn m (nn (jsGetOpt (jsGetOpt result "response") "modelId") .null)
           tags := tags
           inputText := inputText
           inputJson := inputJson
           promptJson := promptJson
           outputText := nn outputText .null
           outputJson := nn body .null
           contentJson := contentJson
           reasoningText := nn reasoningText .null
           reasoningJson := reasoningJsonOf result
           inputTokens := usage.inputTokens
           outputTokens := usage.outputTokens
           totalTokens := usage.totalTokens
           cachedInputTokens := usage.cachedInputTokens
           reasoningTokens := usage.reasoningTokens
           outputReasoningTokens := usage.outputReasoningTokens
           requestToolsJson := tools.requestToolsJson
           responseToolsJson := tools.responseToolsJson
           toolCount := tools.toolCount
           toolNames := tools.toolNames
           parallelToolCalls := tools.parallelToolCalls
           temperature := picked.temperature
           topP := picked.topP
           maxOutputTokens := picked.maxOutputTokens
           finishReason := nn (jsGetOpt result "finishReason") .null
           latencyMs := .num lat
           warnings := nn (jsGetOpt result "warnings") .null
           requestId := nn (jsGetOpt (jsGetOpt result "request") "id")
             (nn (jsGetOpt (jsGetOpt (jsGetOpt result "response") "headers") "x-request-id") .null)
           responseId := nn (jsGetOpt (jsGetOpt result "response") "id") .null
           headersJson := nn (jsGetOpt (jsGetOpt result "response") "headers") .null
           meta := nn (jsGetOpt result "providerMetadata") .null
           error := .null }

/-- The `error` payload of the catch block (line 298):
`{ message: String(err?.message ?? err), stack: err?.stack }`. -/
def errorPayload (err : JVal) : JVal :=
  .obj [("message", .str (jsToString (nn (jsGetOpt err "message") err))),
        ("stack", jsGetOpt err "stack")]

/-- The error row of `wrapGenerate`'s catch block (lines 260-299):
request-side fields from `params` alone, `finishReason` fixed to the
sentinel string `error`, response and usage fields all null.  The
re-extraction of tags and input text can itself throw (`collapseInputText`
is not total), in which case that error escapes the catch block. -/
def buildErrorRow (params err : JVal) : Except JVal LLMCallRow := do
  let tags ← extractTags params
  let inputText ← collapseInputText params .undefined
  let toolNames : JVal :=
    if isArr (jsGetOpt params "tools") then
      .arr (((asArr (jsGetOpt params "tools")).map (fun t => jsGetOpt t "name")).filter JVal.truthy)
    else .null
  return { modelId := jsGetOpt params "modelId"
           tags := tags
           inputText := inputText
           inputJson := params
           promptJson := nn (jsGetOpt params "prompt") .null
           outputText := .null
           outputJson := .null
           contentJson := .null
           reasoningText := .null
           reasoningJson := .null
           inputTokens := .null
           outputTokens := .null
           totalTokens := .null
           cachedInputTokens := .null
           reasoningTokens := .null
           outputReasoningTokens := .null
           requestToolsJson := nn (jsGetOpt params "tools") .null
           responseToolsJson := .null
           toolCount := .null
           toolNames := toolNames
           parallelToolCalls := .null
           temperature := nn (jsGetOpt params "temperature") .null
           topP := nn (jsGetOpt params "topP") .null
           maxOutputTokens := nn (jsGetOpt params "maxOutputTokens") .null
           finishReason := .str "error"
           latencyMs := .null
           warnings := .null
           requestId := .null
           responseId := .null
           headersJson := .null
           meta := .null
           error := errorPayload err }

/-- The catch block of `wrapGenerate` (lines 259-302): build the error
row, `await save(row)`, then `throw err`.  A throw from the row build or
from `save` replaces the original error `err` (there is no nested
try/catch). -/
def wrapGenerateCatch (params err : JVal) (save : LLMCallRow → Except JVal Unit) :
    List LLMCallRow × Except JVal JVal :=
  match buildErrorRow params err with
  | .error e2 => ([], .error e2)
  | .ok erow =>
    match save erow with
    | .error e3 => ([], .error e3)
    | .ok _ => ([erow], .error err)

/-- `wrapGenerate` (lines 181-303).  `gen` is the outcome of the awaited
`doGenerate()`; the returned pair is (rows successfully persisted, the
value returned / error thrown to the caller).  `extractTags` runs before
the `try` (line 183); inside the `try`, a throw from the row build or
from `save` transfers to the catch block. -/
def wrapGenerate (params : JVal) (gen : Except JVal JVal)
    (save : LLMCallRow → Except JVal Unit) (lat : Int) :
    List LLMCallRow × Except JVal JVal :=
  match extractTags params with
  | .error e => ([], .error e)
  | .ok tags =>
    match gen with
    | .error e => wrapGenerateCatch params e save
    | .ok result =>
      match buildSuccessRow params result tags lat with
      | .error e => wrapGenerateCatch params e save
      | .ok row =>
        match save row with
        | .error e => wrapGenerateCatch params e save
        | .ok _ => ([row], .ok result)

/-! ### Streaming path: `wrapStream` (lines 306-387) -/

/-- The chain `rest?.request?.body.model` of line 335: optional up to
`body`, then a plain access that throws when `request` is present but
its `body` is nullish. -/
def chainReqBodyModel (rest : JVal) : Except JVal JVal :=
  if (jsGetOpt rest "request").isNullish then .ok .undefined
  else jsGetE (jsGetOpt (jsGetOpt rest "request") "body") "model"

/-- Rows built at a finish chunk do not throw exactly when this holds of
the invocation result `rest` (the only unguarded access in the finish
handler is `rest?.request?.body.model`). -/
def streamSafe (rest : JVal) : Bool :=
  (jsGetOpt rest "request").isNullish
    || !(jsGetOpt (jsGetOpt rest "request") "body").isNullish

/-- The row assembled inside the finish-chunk branch of the transform
(lines 325-371), from the accumulated text buffers and the finish chunk
itself. -/
def buildStreamRow (params rest tags inputText : JVal) (fullText : String)
    (reasoningText : Option String) (chunk : JVal) (lat : Int) :
    Except JVal LLMCallRow := do
  let body := jsGetOpt (jsGetOpt rest "response") "body"
  let bodyUsage := nn (jsGetOpt chunk "usage") (jsGetOpt body "usage")
  let usage := normUsage (jsGetOpt chunk "usage") bodyUsage
  let tools ← extractToolMeta params rest body
  let picked ← pickNumericParams params body
  let m ← chainReqBodyModel rest
  return { modelId := nn m (nn (jsGetOpt body "model") .null)
           tags := tags
           inputText := inputText
           inputJson := nn (jsGetOpt (jsGetOpt rest "request") "body")
             (nn (jsGetOpt rest "request") params)
           promptJson := nn (jsGetOpt params "prompt") .null
           outputText := if fullText = "" then .null else .str fullText
           outputJson := nn body .null
           contentJson := .null
           reasoningText := match reasoningText with
             | some s => .str s
             | none => .null
           reasoningJson := .null
           inputTokens := usage.inputTokens
           outputTokens := usage.outputTokens
           totalTokens := usage.totalTokens
           cachedInputTokens := usage.cachedInputTokens
           reasoningTokens := usage.reasoningTokens
           outputReasoningTokens := usage.outputReasoningTokens
           requestToolsJson := tools.requestToolsJson
           responseToolsJson := tools.responseToolsJson
           toolCount := tools.toolCount
           toolNames := tools.toolNames
           parallelToolCalls := tools.parallelToolCalls
           temperature := picked.temperature
           topP := picked.topP
           maxOutputTokens := picked.maxOutputTokens
           finishReason := nn (jsGetOpt chunk "finishReason") .null
           latencyMs := .num lat
           warnings := nn (jsGetOpt rest "warnings") .null
           requestId := nn (jsGetOpt (jsGetOpt rest "request") "id")
             (nn (jsGetOpt (jsGetOpt (jsGetOpt rest "response") "headers") "x-request-id") .null)
           responseId := nn (jsGetOpt (jsGetOpt rest "response") "id") .null
           headersJson := nn (jsGetOpt (jsGetOpt rest "response") "headers") .null
           meta := nn (jsGetOpt rest "providerMetadata") .null
           error := .null }

/-- Ambient data of one wrapped stream: call parameters, the non-stream
part of the `doStream` result, the start-time tags and collated input
text, the sink, and the latency recorded at finalization. -/
structure StreamCtx where
  params : JVal
  rest : JVal
  tags : JVal
  inputText : JVal
  save : LLMCallRow → Except JVal Unit
  lat : Int

/-- Observable state of the transform stage: the text buffers, the
chunks enqueued downstream, the rows whose (fire-and-forget) save
succeeded, the save failures reported to `console.error`, and — when the
transform callback itself threw — the error that broke the stream. -/
structure StreamAcc where
  fullText : String
  reasoningText : Option String
  outChunks : List JVal
  savedRows : List LLMCallRow
  consoleErrors : List JVal
  streamError : Option JVal

def initAcc : StreamAcc :=
  { fullText := "", reasoningText := none, outChunks := [], savedRows := [],
    consoleErrors := [], streamError := none }

/-- One `transform(chunk, controller)` call (lines 318-383).  Text and
reasoning deltas are appended to the buffers; a finish chunk builds the
row and schedules `save` via `setImmediate` (its failure is only
`console.error`-logged); every chunk is finally enqueued unchanged.  A
throw inside the callback errors the whole stream: later chunks are
neither processed nor delivered. -/
def stepChunk (ctx : StreamCtx) (st : StreamAcc) (c : JVal) : StreamAcc :=
  if st.streamError.isSome then st
  else
    let st1 := if isType c "text-delta" then
        { st with fullText := st.fullText ++ jsToString (jsGetOpt c "delta") }
      else st
    let st2 := if isType c "reasoning-delta" then
        match jsGetOpt c "delta" with
        | .str s => { st1 with reasoningText := some ((st1.reasoningText.getD "") ++ s) }
        | _ => st1
      else st1
    if isType c "finish" then
      match buildStreamRow ctx.params ctx.rest ctx.tags ctx.inputText
          st2.fullText st2.reasoningText c ctx.lat with
      | .error e => { st2 with streamError := some e }
      | .ok row =>
        let st3 := match ctx.save row with
          | .ok _ => { st2 with savedRows := st2.savedRows ++ [row] }
          | .error e => { st2 with consoleErrors := st2.consoleErrors ++ [e] }
        { st3 with outChunks := st3.outChunks ++ [c] }
    else { st2 with outChunks := st2.outChunks ++ [c] }

/-- The transform stage applied to a whole chunk sequence. -/
def processChunks (ctx : StreamCtx) (chunks : List JVal) : StreamAcc :=
  chunks.foldl (stepChunk ctx) initAcc

/-- `wrapStream` (lines 306-387): compute tags and the collated input
text once at stream start, then pipe the chunks through the transform
stage. -/
def wrapStream (params rest : JVal) (save : LLMCallRow → Except JVal Unit)
    (lat : Int) (chunks : List JVal) : Except JVal StreamAcc :=
  match extractTags params with
  | .error e => .error e
  | .ok tags =>
    match collapseInputText params (jsGetOpt (jsGetOpt rest "request") "body") with
    | .error e => .error e
    | .ok it =>
      .ok (processChunks
        { params := params, rest := rest, tags := tags, inputText := it,
          save := save, lat := lat } chunks)

/-- Number of finish chunks in a sequence. -/
def countFinish (chunks : List JVal) : Nat :=
  chunks.countP (fun c => isType c "finish")

/-- Contribution of one chunk to the output-text buffer. -/
def tDelta (c : JVal) : String :=
  if isType c "text-delta" then jsToString (jsGetOpt c "delta") else ""

/-- Effect of one chunk on the reasoning-text buffer (`none` = the
buffer was never written). -/
def rStep (r : Option String) (c : JVal) : Option String :=
  if isType c "reasoning-delta" then
    match jsGetOpt c "delta" with
    | .str s => some ((r.getD "") ++ s)
    | _ => r
  else r

/-- Arrival-order concatenation of the (string-coerced) payloads of the
text-delta chunks of a sequence. -/
def textConcat : List JVal → String
  | [] => ""
  | c :: cs => tDelta c ++ textConcat cs

/-- Arrival-order accumulation of the string reasoning-delta payloads,
starting from buffer state `r`. -/
def rConcat (r : Option String) : List JVal → Option String
  | [] => r
  | c :: cs => rConcat (rStep r c) cs

/-! ### Lemmas about the JS helpers -/

/-- A truthy optional lookup forces a non-nullish receiver. -/
theorem truthy_get_not_nullish (v : JVal) (k : String)
    (h : (jsGetOpt v k).truthy = true) : v.isNullish = false := by
  cases v <;> simp_all [jsGetOpt, JVal.truthy, JVal.isNullish]

/-- A string-valued optional lookup forces a non-nullish receiver. -/
theorem isStr_get_not_nullish (v : JVal) (k : String)
    (h : isStrV (jsGetOpt v k) = true) : v.isNullish = false := by
  cases v <;> simp_all [jsGetOpt, isStrV, JVal.isNullish]

theorem jsGetE_of_not_nullish (v : JVal) (k : String)
    (h : v.isNullish = false) : jsGetE v k = .ok (jsGetOpt v k) := by
  simp [jsGetE, h]

/-! ### Claim C4: usage-field precedence in `normUsage` -/

/-- Claim C4 counterexample: the claimed precedence (normalized-object
field first, raw-body field second) fails for `outputReasoningTokens`:
with the normalized object carrying `reasoningTokens = 7` and the raw
body carrying `output_tokens_details.reasoning_tokens = 99`, the result
is `99` (raw body wins over the present normalized field).  Moreover
`reasoningTokens` never consults the raw body at all: with only the
raw-body alias present it resolves to null rather than `42`. -/
theorem normUsage_precedence_counterexample :
    (normUsage (.obj [("reasoningTokens", .num 7)])
      (.obj [("output_tokens_details", .obj [("reasoning_tokens", .num 99)])])).outputReasoningTokens
      = .num 99
  ∧ jsGetOpt (.obj [("reasoningTokens", .num 7)]) "reasoningTokens" = .num 7
  ∧ (JVal.num 99 ≠ JVal.num 7)
  ∧ (normUsage .undefined
      (.obj [("output_tokens_details", .obj [("reasoning_tokens", .num 42)])])).reasoningTokens
      = .null := by
  refine ⟨rfl, rfl, ?_, rfl⟩
  intro h
  injection h with h2
  exact absurd h2 (by decide)

/-- Claim C4 (amended): `inputTokens`, `outputTokens`,
`cachedInputTokens` and `totalTokens` resolve normalized-object field
names first (camelCase plus the legacy `promptTokens` /
`completionTokens` aliases), then the raw-body names, then absent;
`reasoningTokens` reads only the normalized object; but
`outputReasoningTokens` reads the raw-body nested detail FIRST and only
falls back to the normalized `reasoningTokens`.  The spec's concrete
example still holds: normalized `{inputTokens: 10}` with raw body
`{input_tokens: 99, output_tokens: 5}` yields inputTokens 10 and
outputTokens 5. -/
theorem normUsage_precedence (u b : JVal) :
    ((jsGetOpt u "inputTokens").isNullish = false →
      (normUsage u b).inputTokens = jsGetOpt u "inputTokens")
  ∧ ((jsGetOpt u "inputTokens").isNullish = true →
      (jsGetOpt u "promptTokens").isNullish = false →
      (normUsage u b).inputTokens = jsGetOpt u "promptTokens")
  ∧ ((jsGetOpt u "inputTokens").isNullish = true →
      (jsGetOpt u "promptTokens").isNullish = true →
      (normUsage u b).inputTokens = nn (jsGetOpt b "input_tokens") .null)
  ∧ ((jsGetOpt u "outputTokens").isNullish = false →
      (normUsage u b).outputTokens = jsGetOpt u "outputTokens")
  ∧ ((jsGetOpt u "outputTokens").isNullish = true →
      (jsGetOpt u "completionTokens").isNullish = false →
      (normUsage u b).outputTokens = jsGetOpt u "completionTokens")
  ∧ ((jsGetOpt u "outputTokens").isNullish = true →
      (jsGetOpt u "completionTokens").isNullish = true →
      (normUsage u b).outputTokens = nn (jsGetOpt b "output_tokens") .null)
  ∧ ((jsGetOpt u "cachedInputTokens").isNullish = false →
      (normUsage u b).cachedInputTokens = jsGetOpt u "cachedInputTokens")
  ∧ ((jsGetOpt u "cachedInputTokens").isNullish = true →
      (normUsage u b).cachedInputTokens
        = nn (jsGetOpt (jsGetOpt b "input_tokens_details") "cached_tokens") .null)
  ∧ ((jsGetOpt u "totalTokens").isNullish = false →
      (normUsage u b).totalTokens = jsGetOpt u "totalTokens")
  ∧ ((normUsage u b).reasoningTokens = nn (jsGetOpt u "reasoningTokens") .null)
  ∧ (((jsGetOpt (jsGetOpt b "output_tokens_details") "reasoning_tokens").isNullish = false →
      (normUsage u b).outputReasoningTokens
        = jsGetOpt (jsGetOpt b "output_tokens_details") "reasoning_tokens")
  ∧ ((jsGetOpt (jsGetOpt b "output_tokens_details") "reasoning_tokens").isNullish = true →
      (normUsage u b).outputReasoningTokens = nn (jsGetOpt u "reasoningTokens") .null))
  ∧ ((normUsage (.obj [("inputTokens", .num 10)])
        (.obj [("input_tokens", .num 99), ("output_tokens", .num 5)])).inputTokens = .num 10
    ∧ (normUsage (.obj [("inputTokens", .num 10)])
        (.obj [("input_tokens", .num 99), ("output_tokens", .num 5)])).outputTokens = .num 5) := by
  refine ⟨?_, ?_, ?_, ?_, ?_, ?_, ?_, ?_, ?_, ?_, ⟨?_, ?_⟩, ⟨rfl, rfl⟩⟩ <;>
    intros <;> simp_all [normUsage, nn]

/-- Witness for `normUsage_precedence` at the spec's concrete example. -/
theorem normUsage_precedence_witness :
    (normUsage (.obj [("inputTokens", .num 10)])
      (.obj [("input_tokens", .num 99), ("output_tokens", .num 5)])).inputTokens
      = jsGetOpt (.obj [("inputTokens", .num 10)]) "inputTokens" :=
  (normUsage_precedence (.obj [("inputTokens", .num 10)])
    (.obj [("input_tokens", .num 99), ("output_tokens", .num 5)])).1 (by rfl)

/-! ### Claim C8: derivation rule for `totalTokens` -/

/-- Claim C8: `totalTokens` takes a total present in the normalized
usage object, else one present in the raw body usage; when neither
source has a total it is `inputTokens + outputTokens` exactly when both
of those resolved to (numeric) present values, and null otherwise —
never coerced to zero.  Concretely, `{inputTokens: 10, outputTokens: 5}`
with no total anywhere gives 15, and `{inputTokens: 10}` alone gives
null. -/
theorem normUsage_totalTokens (u b : JVal) :
    ((jsGetOpt u "totalTokens").isNullish = false →
      (normUsage u b).totalTokens = jsGetOpt u "totalTokens")
  ∧ ((jsGetOpt u "totalTokens").isNullish = true →
      (jsGetOpt b "total_tokens").isNullish = false →
      (normUsage u b).totalTokens = jsGetOpt b "total_tokens")
  ∧ (∀ i o : Int,
      (jsGetOpt u "totalTokens").isNullish = true →
      (jsGetOpt b "total_tokens").isNullish = true →
      (normUsage u b).inputTokens = .num i →
      (normUsage u b).outputTokens = .num o →
      (normUsage u b).totalTokens = .num (i + o))
  ∧ ((jsGetOpt u "totalTokens").isNullish = true →
      (jsGetOpt b "total_tokens").isNullish = true →
      ((normUsage u b).inputTokens.isNullish = true
        ∨ (normUsage u b).outputTokens.isNullish = true) →
      (normUsage u b).totalTokens = .null)
  ∧ ((normUsage (.obj [("inputTokens", .num 10), ("outputTokens", .num 5)]) .undefined).totalTokens
      = .num 15
    ∧ (normUsage (.obj [("inputTokens", .num 10)]) .undefined).totalTokens = .null) := by
  refine ⟨?_, ?_, ?_, ?_, ⟨rfl, rfl⟩⟩
  · intro h; simp_all [normUsage, nn]
  · intro h1 h2; simp_all [normUsage, nn]
  · intro i o h1 h2 h3 h4
    simp only [normUsage] at h3 h4 ⊢
    simp_all [nn, jsAdd, JVal.isNullish]
  · intro h1 h2 h3
    simp only [normUsage] at h3 ⊢
    rcases h3 with h3 | h3 <;> simp_all [nn, JVal.isNullish]

/-- Witness for `normUsage_totalTokens`: the derived-total branch at the
spec's concrete example. -/
theorem normUsage_totalTokens_witness :
    (normUsage (.obj [("inputTokens", .num 10), ("outputTokens", .num 5)]) .undefined).totalTokens
      = .num (10 + 5) :=
  (normUsage_totalTokens (.obj [("inputTokens", .num 10), ("outputTokens", .num 5)])
    .undefined).2.2.1 10 5 (by rfl) (by rfl) (by rfl) (by rfl)

/-! ### Claim C6: totality of the field extractors -/

/-- Claim C6 counterexample: the extraction functions are not all total.
`extractTextFromResponseBody` throws a `TypeError` on the truthy body
`{usage: {}}` (the unguarded chain `body.choices[0].message` dereferences
a missing `choices`), and `collapseInputText` throws on
`{prompt: [null]}` (the plain access `m.role` on a null message). -/
theorem extractors_total_counterexample :
    isThrow (extractTextFromResponseBody (.obj [("usage", .obj [])])) = true
  ∧ isThrow (collapseInputText (.obj [("prompt", .arr [.null])]) .undefined) = true := by
  exact ⟨rfl, rfl⟩

theorem extractTextFromResultContent_ok (result : JVal) :
    isThrow (extractTextFromResultContent result) = false := by
  unfold extractTextFromResultContent
  cases h : jsGetOpt result "content"
  case arr xs => by_cases hl : (textParts xs).length > 0 <;> simp [hl, isThrow]
  all_goals rfl

/-- Claim C6 (amended): of the listed extraction functions, `extractTags`,
`extractTextFromResult`, `extractToolMeta` and `pickNumericParams` are
total — for inputs of any shape they return best-effort values and never
throw (every property access is optional-chained or syntactically
guarded).  `extractTextFromResponseBody` and `collapseInputText` are the
exceptions, witnessed by the counterexample. -/
theorem extractors_total (params result p r b p2 b2 : JVal) :
    isThrow (extractTags params) = false
  ∧ isThrow (extractTextFromResult result) = false
  ∧ isThrow (extractToolMeta p r b) = false
  ∧ isThrow (pickNumericParams p2 b2) = false := by
  refine ⟨?_, ?_, rfl, rfl⟩
  · unfold extractTags
    by_cases h : (jsGetOpt (nn (jsGetOpt (jsGetOpt params "providerOptions") "usageLogger")
      (jsGetOpt (jsGetOpt params "providerMetadata") "usageLogger")) "tags").truthy = false
    · simp [h, isThrow]
    · have ht : (jsGetOpt (nn (jsGetOpt (jsGetOpt params "providerOptions") "usageLogger")
          (jsGetOpt (jsGetOpt params "providerMetadata") "usageLogger")) "tags").truthy = true := by
        revert h; cases (jsGetOpt (nn (jsGetOpt (jsGetOpt params "providerOptions") "usageLogger")
          (jsGetOpt (jsGetOpt params "providerMetadata") "usageLogger")) "tags").truthy <;> simp
      have hnn := truthy_get_not_nullish _ "tags" ht
      simp [ht, jsGetE_of_not_nullish _ _ hnn, isThrow]
  · unfold extractTextFromResult
    by_cases h : isStrV (jsGetOpt result "text") = true
    · have hnn := isStr_get_not_nullish _ "text" h
      simp only [h, if_true]
      rw [jsGetE_of_not_nullish _ _ hnn]
      by_cases hl : 0 < (asStr (jsGetOpt result "text")).length
      · simp [hl, isThrow]
      · simpa [hl] using extractTextFromResultContent_ok result
    · simp only [Bool.not_eq_true] at h
      simp [h, extractTextFromResultContent_ok]

/-! ### Monad / string helper lemmas -/

theorem jbind_ok {α β : Type} (a : α) (f : α → Except JVal β) :
    (Except.ok a >>= f) = f a := rfl

theorem jbind_err {α β : Type} (e : JVal) (f : α → Except JVal β) :
    ((Except.error e : Except JVal α) >>= f) = Except.error e := rfl

theorem str_append_empty (s : String) : s ++ "" = s := by
  cases s
  simp [String.append]

theorem str_nil_append (s : String) : "" ++ s = s := by
  cases s
  simp [String.append]

/-- A chunk's `type` field matches at most one type string. -/
theorem isType_elim {c : JVal} (t1 t2 : String) (h1 : isType c t1 = true)
    (ht : ¬ t1 = t2) : isType c t2 = false := by
  unfold isType at h1 ⊢
  cases h : jsGetOpt c "type" <;> rw [h] at h1 <;> try rfl
  case str s =>
    have hs : s = t1 := by simpa using h1
    subst hs
    simpa [beq_eq_false_iff_ne] using ht

/-! ### Lemmas about the streaming transform -/

theorem chainReqBodyModel_ok {rest : JVal} (h : streamSafe rest = true) :
    ∃ m, chainReqBodyModel rest = .ok m := by
  unfold streamSafe at h
  unfold chainReqBodyModel
  cases h1 : (jsGetOpt rest "request").isNullish
  · rw [h1] at h
    simp only [Bool.false_or] at h
    have h2 : (jsGetOpt (jsGetOpt rest "request") "body").isNullish = false := by
      simpa using h
    refine ⟨jsGetOpt (jsGetOpt (jsGetOpt rest "request") "body") "model", ?_⟩
    simp [h1, jsGetE, h2]
  · exact ⟨.undefined, by simp [h1]⟩

theorem buildStreamRow_ok {rest : JVal} (params tags inputText : JVal) (ft : String)
    (rt : Option String) (c : JVal) (lat : Int) (h : streamSafe rest = true) :
    ∃ row, buildStreamRow params rest tags inputText ft rt c lat = .ok row
      ∧ row.outputText = (if ft = "" then JVal.null else .str ft)
      ∧ row.reasoningText = (match rt with | some s => JVal.str s | none => JVal.null)
      ∧ row.error = .null
      ∧ row.finishReason = nn (jsGetOpt c "finishReason") .null := by
  obtain ⟨m, hm⟩ := chainReqBodyModel_ok h
  unfold buildStreamRow extractToolMeta pickNumericParams
  simp only [jbind_ok, hm]
  exact ⟨_, rfl, rfl, rfl, rfl, rfl⟩

theorem stepChunk_nonfinish (ctx : StreamCtx) (acc : StreamAcc) (c : JVal)
    (herr : acc.streamError = none) (hfin : isType c "finish" = false) :
    stepChunk ctx acc c =
      { fullText := acc.fullText ++ tDelta c,
        reasoningText := rStep acc.reasoningText c,
        outChunks := acc.outChunks ++ [c],
        savedRows := acc.savedRows,
        consoleErrors := acc.consoleErrors,
        streamError := none } := by
  unfold stepChunk tDelta rStep
  by_cases h1 : isType c "text-delta" = true <;>
    by_cases h2 : isType c "reasoning-delta" = true
  · have h3 := isType_elim "text-delta" "reasoning-delta" h1 (by decide)
    simp [h3] at h2
  · simp [herr, h1, h2, hfin, str_append_empty]
  · cases hd : jsGetOpt c "delta" <;>
      simp [herr, h1, h2, hfin, hd, str_append_empty]
  · cases hd : jsGetOpt c "delta" <;>
      simp [herr, h1, h2, hfin, hd, str_append_empty]

theorem stepChunk_finish (ctx : StreamCtx) (acc : StreamAcc) (c : JVal)
    (hsafe : streamSafe ctx.rest = true)
    (herr : acc.streamError = none) (hfin : isType c "finish" = true) :
    ∃ row,
      buildStreamRow ctx.params ctx.rest ctx.tags ctx.inputText
          acc.fullText acc.reasoningText c ctx.lat = .ok row
      ∧ row.outputText = (if acc.fullText = "" then JVal.null else .str acc.fullText)
      ∧ row.reasoningText
          = (match acc.reasoningText with | some s => JVal.str s | none => JVal.null)
      ∧ row.error = .null
      ∧ (ctx.save row = .ok () →
          stepChunk ctx acc c =
            { acc with
                savedRows := acc.savedRows ++ [row],
                outChunks := acc.outChunks ++ [c] })
      ∧ (∀ e, ctx.save row = .error e →
          stepChunk ctx acc c =
            { acc with
                consoleErrors := acc.consoleErrors ++ [e],
                outChunks := acc.outChunks ++ [c] }) := by
  have h1 := isType_elim "finish" "text-delta" hfin (by decide)
  have h2 := isType_elim "finish" "reasoning-delta" hfin (by decide)
  obtain ⟨row, hrow, ho, hr, he, hf⟩ :=
    buildStreamRow_ok ctx.params ctx.tags ctx.inputText acc.fullText
      acc.reasoningText c ctx.lat hsafe
  refine ⟨row, hrow, ho, hr, he, ?_, ?_⟩
  · intro hs
    unfold stepChunk
    simp only [herr, Option.isSome_none, Bool.false_eq_true, if_false, h1, h2, hfin, if_true,
      ite_true, ite_false, hrow, hs]
  · intro e hs
    unfold stepChunk
    simp only [herr, Option.isSome_none, Bool.false_eq_true, if_false, h1, h2, hfin, if_true,
      ite_true, ite_false, hrow, hs]

/-- Folding the transform over a finish-free segment only grows the text
buffers and the delivered chunks; nothing is saved and nothing errors,
whatever the invocation-result shape or the sink behaviour. -/
theorem foldl_nonfinish (ctx : StreamCtx) (chunks : List JVal) :
    ∀ (acc : StreamAcc), acc.streamError = none →
      (∀ c ∈ chunks, isType c "finish" = false) →
      List.foldl (stepChunk ctx) acc chunks =
        { fullText := acc.fullText ++ textConcat chunks,
          reasoningText := rConcat acc.reasoningText chunks,
          outChunks := acc.outChunks ++ chunks,
          savedRows := acc.savedRows,
          consoleErrors := acc.consoleErrors,
          streamError := none } := by
  induction chunks with
  | nil =>
    intro acc herr _
    cases acc
    simp_all [textConcat, rConcat, str_append_empty]
  | cons c cs ih =>
    intro acc herr hall
    have hc : isType c "finish" = false := hall c (by simp)
    have hcs : ∀ x ∈ cs, isType x "finish" = false := fun x hx => hall x (by simp [hx])
    rw [List.foldl_cons, stepChunk_nonfinish ctx acc c herr hc, ih _ rfl hcs]
    simp [textConcat, rConcat, String.append_assoc]

theorem countFinish_cons (c : JVal) (cs : List JVal) :
    countFinish (c :: cs) = countFinish cs + (if isType c "finish" = true then 1 else 0) := by
  simp [countFinish, List.countP_cons]

/-- Under a safe invocation-result shape the transform never errors the
stream: every chunk is delivered, one save attempt (successful or
console-logged) happens per finish chunk, and every row that reaches the
sink carries a null error field. -/
theorem foldl_safe (ctx : StreamCtx) (hsafe : streamSafe ctx.rest = true) (chunks : List JVal) :
    ∀ (acc : StreamAcc), acc.streamError = none →
      (List.foldl (stepChunk ctx) acc chunks).streamError = none
    ∧ (List.foldl (stepChunk ctx) acc chunks).outChunks = acc.outChunks ++ chunks
    ∧ (List.foldl (stepChunk ctx) acc chunks).savedRows.length
        + (List.foldl (stepChunk ctx) acc chunks).consoleErrors.length
        = acc.savedRows.length + acc.consoleErrors.length + countFinish chunks
    ∧ ∃ t, (List.foldl (stepChunk ctx) acc chunks).savedRows = acc.savedRows ++ t
        ∧ ∀ r ∈ t, r.error = JVal.null := by
  induction chunks with
  | nil =>
    intro acc herr
    exact ⟨herr, by simp, by simp [countFinish], ⟨[], by simp, by simp⟩⟩
  | cons c cs ih =>
    intro acc herr
    rw [List.foldl_cons]
    by_cases hc : isType c "finish" = true
    · obtain ⟨row, hrow, ho, hr, he, hsok, hserr⟩ := stepChunk_finish ctx acc c hsafe herr hc
      cases hs : ctx.save row with
      | ok u =>
        cases u
        rw [hsok hs]
        obtain ⟨h1, h2, h3, t, ht, hmem⟩ := ih
          { acc with
              savedRows := acc.savedRows ++ [row],
              outChunks := acc.outChunks ++ [c] } herr
        refine ⟨h1, ?_, ?_, ⟨row :: t, ?_, ?_⟩⟩
        · rw [h2]; simp
        · rw [h3, countFinish_cons]
          simp [hc]
          omega
        · rw [ht]; simp
        · intro r hmemr
          rcases List.mem_cons.mp hmemr with h | h
          · exact h ▸ he
          · exact hmem r h
      | error e =>
        rw [hserr e hs]
        obtain ⟨h1, h2, h3, t, ht, hmem⟩ := ih
          { acc with
              consoleErrors := acc.consoleErrors ++ [e],
              outChunks := acc.outChunks ++ [c] } herr
        refine ⟨h1, ?_, ?_, ⟨t, ?_, hmem⟩⟩
        · rw [h2]; simp
        · rw [h3, countFinish_cons]
          simp [hc]
          omega
        · rw [ht]
    · have hcf : isType c "finish" = false := by
        revert hc; cases isType c "finish" <;> simp
      rw [stepChunk_nonfinish ctx acc c herr hcf]
      obtain ⟨h1, h2, h3, t, ht, hmem⟩ := ih
        { fullText := acc.fullText ++ tDelta c,
          reasoningText := rStep acc.reasoningText c,
          outChunks := acc.outChunks ++ [c],
          savedRows := acc.savedRows,
          consoleErrors := acc.consoleErrors,
          streamError := none } rfl
      refine ⟨h1, ?_, ?_, ⟨t, ht, hmem⟩⟩
      · rw [h2]; simp
      · rw [h3, countFinish_cons]
        simp [hcf]

/-! ### Claim C2: the one-shot error row -/

/-- Claim C2: when the underlying one-shot invocation rejects with an
error carrying `message`/`stack`, `wrapGenerate` persists exactly one
row: `finishReason` is the sentinel string `error`, the `error` field is
the `{message, stack}` pair of the thrown error, the request-side fields
come from `params` alone, every response-side and usage field is null,
and the very error object is re-thrown to the caller (so its message,
e.g. `boom`, reaches the caller unchanged).  The hypotheses pin the two
re-extractions that the catch block runs on `params` (both total on
well-formed params). -/
theorem wrapGenerate_error_path (params : JVal) (msg stk : String) (lat : Int)
    (tg it : JVal)
    (h1 : extractTags params = .ok tg)
    (h2 : collapseInputText params .undefined = .ok it) :
    wrapGenerate params (.error (.obj [("message", .str msg), ("stack", .str stk)]))
        saveOk lat
      = ([{ modelId := jsGetOpt params "modelId"
            tags := tg
            inputText := it
            inputJson := params
            promptJson := nn (jsGetOpt params "prompt") .null
            outputText := .null
            outputJson := .null
            contentJson := .null
            reasoningText := .null
            reasoningJson := .null
            inputTokens := .null
            outputTokens := .null
            totalTokens := .null
            cachedInputTokens := .null
            reasoningTokens := .null
            outputReasoningTokens := .null
            requestToolsJson := nn (jsGetOpt params "tools") .null
            responseToolsJson := .null
            toolCount := .null
            toolNames := if isArr (jsGetOpt params "tools") then
                .arr (((asArr (jsGetOpt params "tools")).map
                  (fun t => jsGetOpt t "name")).filter JVal.truthy)
              else .null
            parallelToolCalls := .null
            temperature := nn (jsGetOpt params "temperature") .null
            topP := nn (jsGetOpt params "topP") .null
            maxOutputTokens := nn (jsGetOpt params "maxOutputTokens") .null
            finishReason := .str "error"
            latencyMs := .null
            warnings := .null
            requestId := .null
            responseId := .null
            headersJson := .null
            meta := .null
            error := .obj [("message", .str msg), ("stack", .str stk)] }],
         .error (.obj [("message", .str msg), ("stack", .str stk)])) := by
  unfold wrapGenerate wrapGenerateCatch buildErrorRow
  rw [h1]
  simp only [jbind_ok]
  rw [h2]
  simp only [jbind_ok]
  rfl

/-- Witness for `wrapGenerate_error_path` at a concrete call: prompt
string `hi`, underlying rejection `Error(\"boom\")`. -/
theorem wrapGenerate_error_path_witness :
    (wrapGenerate (.obj [("prompt", .str "hi")])
        (.error (.obj [("message", .str "boom"), ("stack", .str "st")])) saveOk 7).2
      = .error (.obj [("message", .str "boom"), ("stack", .str "st")]) := by
  rw [wrapGenerate_error_path (.obj [("prompt", .str "hi")]) "boom" "st" 7
    .undefined (.str "[PROMPT]\nhi") (by rfl) (by rfl)]

/-! ### Claim C3: persistence-fault isolation -/

/-- Claim C3 counterexample: on the one-shot path a sink failure is NOT
isolated.  With a successful underlying call and a sink that always
rejects with `disk full`, the caller receives the persistence exception
instead of the result (first conjunct: no row saved, error thrown); and
with an underlying rejection `boom` and the same failing sink, the error
re-raised to the caller is the persistence fault `disk full`, which has
replaced the original `boom` (second conjunct). -/
theorem save_fault_isolation_counterexample :
    wrapGenerate (.obj [("prompt", .str "hi")])
        (.ok (.obj [("request", .obj [("body", .obj [("model", .str "m")])])]))
        (saveFailWith (.obj [("message", .str "disk full")])) 0
      = ([], .error (.obj [("message", .str "disk full")]))
  ∧ wrapGenerate (.obj [("prompt", .str "hi")])
        (.error (.obj [("message", .str "boom")]))
        (saveFailWith (.obj [("message", .str "disk full")])) 0
      = ([], .error (.obj [("message", .str "disk full")])) := by
  exact ⟨rfl, rfl⟩

/-- Claim C3 (amended): persistence-fault isolation holds only on the
streaming path, where the fire-and-forget save failure is caught and
console-logged and chunk delivery is untouched (third conjunct).  On the
one-shot path a failing save is not isolated: on the success path
control falls into the catch block and the persistence error is thrown
to the caller in place of the original result (first conjunct), and on
the error path the failing save of the error row replaces the original
underlying fault (second conjunct). -/
theorem save_fault_paths (params result tg it orig e : JVal) (lat : Int)
    (row : LLMCallRow)
    (h1 : extractTags params = .ok tg)
    (h2 : collapseInputText params .undefined = .ok it)
    (h3 : buildSuccessRow params result tg lat = .ok row) :
    wrapGenerate params (.ok result) (saveFailWith e) lat = ([], .error e)
  ∧ wrapGenerate params (.error orig) (saveFailWith e) lat = ([], .error e)
  ∧ (∀ (rest tg2 it2 : JVal) (chunks : List JVal), streamSafe rest = true →
      (processChunks ⟨params, rest, tg2, it2, saveFailWith e, lat⟩ chunks).outChunks = chunks
      ∧ (processChunks ⟨params, rest, tg2, it2, saveFailWith e, lat⟩ chunks).streamError
          = none) := by
  refine ⟨?_, ?_, ?_⟩
  · unfold wrapGenerate wrapGenerateCatch buildErrorRow
    rw [h1]
    simp only [jbind_ok]
    rw [h3]
    rw [h2]
    simp only [jbind_ok]
    rfl
  · unfold wrapGenerate wrapGenerateCatch buildErrorRow
    rw [h1]
    simp only [jbind_ok]
    rw [h2]
    simp only [jbind_ok]
    rfl
  · intro rest tg2 it2 chunks hsafe
    obtain ⟨hs1, hs2, _, _⟩ := foldl_safe
      ⟨params, rest, tg2, it2, saveFailWith e, lat⟩ hsafe chunks initAcc rfl
    exact ⟨by simpa [initAcc] using hs2, hs1⟩

/-- Witness for `save_fault_paths` at the concrete inputs of the
counterexample. -/
theorem save_fault_paths_witness :
    wrapGenerate (.obj [("prompt", .str "hi")])
        (.ok (.obj [("request", .obj [("body", .obj [("model", .str "m")])])]))
        (saveFailWith (.obj [("message", .str "disk full")])) 0
      = ([], .error (.obj [("message", .str "disk full")])) :=
  (save_fault_paths (.obj [("prompt", .str "hi")])
    (.obj [("request", .obj [("body", .obj [("model", .str "m")])])])
    .undefined (.str "[PROMPT]\nhi") (.obj [("message", .str "boom")])
    (.obj [("message", .str "disk full")]) 0 _
    (by rfl) (by rfl) (by rfl)).1

/-! ### Claim C1: pass-through of the streaming transform -/

/-- Claim C1 counterexample: pass-through is not unconditional.  When
the invocation result exposes a `request` object without a `body`
(`rest = \x7brequest: \x7b\x7d\x7d`), the finish-chunk handler evaluates
`rest?.request?.body.model` and throws, erroring the transform stream:
the finish chunk is never delivered downstream (zero chunks out, stream
errored), although the underlying stream delivered it. -/
theorem wrapStream_passthrough_counterexample :
    Except.map (fun a => (a.outChunks.length, a.savedRows.length, a.streamError.isSome))
      (wrapStream (.obj []) (.obj [("request", .obj [])]) saveOk 0
        [.obj [("type", .str "finish")]])
      = .ok (0, 0, true) := by
  rfl

/-- Claim C1 (amended): the transform delivers exactly the incoming
chunk sequence, unchanged and in order, and never errors, PROVIDED the
finish-chunk row construction cannot throw — i.e. whenever the
invocation result's `request` is nullish or carries a non-nullish
`body` (`streamSafe`); in particular for any stream with no finish
chunk.  The sink is universally quantified, so delivery is identical for
every save behaviour — persistence is never awaited on the chunk path. -/
theorem wrapStream_passthrough (params rest : JVal)
    (save : LLMCallRow → Except JVal Unit) (lat : Int) (chunks : List JVal)
    (tg it : JVal)
    (h1 : extractTags params = .ok tg)
    (h2 : collapseInputText params (jsGetOpt (jsGetOpt rest "request") "body") = .ok it)
    (hsafe : streamSafe rest = true) :
    ∃ acc, wrapStream params rest save lat chunks = .ok acc
      ∧ acc.outChunks = chunks
      ∧ acc.streamError = none := by
  unfold wrapStream
  rw [h1, h2]
  obtain ⟨hs1, hs2, _, _⟩ := foldl_safe
    ⟨params, rest, tg, it, save, lat⟩ hsafe chunks initAcc rfl
  exact ⟨_, rfl, by simpa [initAcc, processChunks] using hs2,
    by simpa [processChunks] using hs1⟩

/-- Witness for `wrapStream_passthrough`: a two-chunk stream (one text
fragment, one finish) through an empty invocation-result shape. -/
theorem wrapStream_passthrough_witness :
    ∃ acc, wrapStream (.obj []) (.obj []) saveOk 0
        [.obj [("type", .str "text-delta"), ("delta", .str "hi")],
         .obj [("type", .str "finish")]]
        = .ok acc
      ∧ acc.outChunks =
        [.obj [("type", .str "text-delta"), ("delta", .str "hi")],
         .obj [("type", .str "finish")]]
      ∧ acc.streamError = none :=
  wrapStream_passthrough (.obj []) (.obj []) saveOk 0
    [.obj [("type", .str "text-delta"), ("delta", .str "hi")],
     .obj [("type", .str "finish")]]
    .undefined .undefined (by rfl) (by rfl) (by rfl)

/-- Shared helper: the first row persisted by a stream made of a
finish-free prefix, a finish chunk and an arbitrary tail, with a
functioning sink: its `outputText` is the prefix's text concatenation
(null when empty, per `fullText || null`), its `reasoningText` the
prefix's reasoning accumulation. -/
theorem processChunks_first_row (params rest tg it : JVal) (lat : Int)
    (pre post : List JVal) (c : JVal)
    (hsafe : streamSafe rest = true)
    (hpre : ∀ x ∈ pre, isType x "finish" = false)
    (hfin : isType c "finish" = true) :
    (processChunks ⟨params, rest, tg, it, saveOk, lat⟩ (pre ++ c :: post)).savedRows.head?.map
        (fun r => (r.outputText, r.reasoningText))
      = some
        ((if textConcat pre = "" then JVal.null else .str (textConcat pre)),
         (match rConcat none pre with | some s => JVal.str s | none => JVal.null)) := by
  unfold processChunks
  rw [List.foldl_append, foldl_nonfinish _ pre initAcc rfl hpre, List.foldl_cons]
  obtain ⟨row, hrow, ho, hr, he, hsok, hserr⟩ :=
    stepChunk_finish ⟨params, rest, tg, it, saveOk, lat⟩
      { fullText := initAcc.fullText ++ textConcat pre,
        reasoningText := rConcat initAcc.reasoningText pre,
        outChunks := initAcc.outChunks ++ pre,
        savedRows := initAcc.savedRows,
        consoleErrors := initAcc.consoleErrors,
        streamError := none } c hsafe rfl hfin
  rw [hsok rfl]
  obtain ⟨h1, h2, h3, t, ht, hmem⟩ := foldl_safe
    ⟨params, rest, tg, it, saveOk, lat⟩ hsafe post
    { fullText := initAcc.fullText ++ textConcat pre,
      reasoningText := rConcat initAcc.reasoningText pre,
      outChunks := (initAcc.outChunks ++ pre) ++ [c],
      savedRows := initAcc.savedRows ++ [row],
      consoleErrors := initAcc.consoleErrors,
      streamError := none } rfl
  rw [ht]
  have ho2 : row.outputText
      = if textConcat pre = "" then JVal.null else JVal.str (textConcat pre) := by
    simpa [initAcc, str_nil_append] using ho
  simp [initAcc, ho2, hr]

/-! ### Claim C5: order-preserving text aggregation -/

/-- Claim C5 counterexample: the claim's concrete instance is wrong
about its own concatenation: the fragments `Hel`, `lo, `, ` world`
concatenate (in arrival order, exactly as the code persists them) to
`Hello,  world` with two spaces, not to the claimed `Hello, world`. -/
theorem stream_text_order_counterexample :
    (processChunks ⟨.obj [], .obj [], .undefined, .undefined, saveOk, 0⟩
        [.obj [("type", .str "text-delta"), ("delta", .str "Hel")],
         .obj [("type", .str "text-delta"), ("delta", .str "lo, ")],
         .obj [("type", .str "text-delta"), ("delta", .str " world")],
         .obj [("type", .str "finish")]]).savedRows.head?.map
        (fun r => r.outputText)
      = some (.str "Hello,  world")
  ∧ ("Hello,  world" ≠ "Hello, world") := by
  exact ⟨rfl, by decide⟩

/-- Claim C5 (amended): for a stream consisting of a finish-free prefix
followed by a finish chunk (and any tail), the persisted row's output
text is the concatenation, in arrival order, of the text-delta payloads
of the prefix (`fullText || null`, so null when that concatenation is
empty — see the claim on empty streams), and its reasoning text is the
arrival-order accumulation of the string reasoning-delta payloads (null
when none occurred).  No reordering is applied.  For the claim's
fragments `Hel`, `lo, `, ` world` that concatenation is
`Hello,  world` (the claim's `Hello, world` drops one of the two
adjacent spaces contributed by the fragments themselves). -/
theorem stream_text_order (params rest tg it : JVal) (lat : Int)
    (pre post : List JVal) (c : JVal)
    (hsafe : streamSafe rest = true)
    (hpre : ∀ x ∈ pre, isType x "finish" = false)
    (hfin : isType c "finish" = true) :
    (processChunks ⟨params, rest, tg, it, saveOk, lat⟩ (pre ++ c :: post)).savedRows.head?.map
        (fun r => (r.outputText, r.reasoningText))
      = some
        ((if textConcat pre = "" then JVal.null else .str (textConcat pre)),
         (match rConcat none pre with | some s => JVal.str s | none => JVal.null)) :=
  processChunks_first_row params rest tg it lat pre post c hsafe hpre hfin

/-- Witness for `stream_text_order`: the fragments `Hel`, `lo, `,
` world` followed by a finish chunk persist exactly their in-order
concatenation `Hello,  world`. -/
theorem stream_text_order_witness :
    (processChunks ⟨.obj [], .obj [], .undefined, .undefined, saveOk, 0⟩
        ([.obj [("type", .str "text-delta"), ("delta", .str "Hel")],
          .obj [("type", .str "text-delta"), ("delta", .str "lo, ")],
          .obj [("type", .str "text-delta"), ("delta", .str " world")]]
          ++ (.obj [("type", .str "finish")]) :: [])).savedRows.head?.map
        (fun r => (r.outputText, r.reasoningText))
      = some (JVal.str "Hello,  world", JVal.null) := by
  rw [stream_text_order (.obj []) (.obj []) .undefined .undefined 0
    [.obj [("type", .str "text-delta"), ("delta", .str "Hel")],
     .obj [("type", .str "text-delta"), ("delta", .str "lo, ")],
     .obj [("type", .str "text-delta"), ("delta", .str " world")]]
    [] (.obj [("type", .str "finish")]) (by rfl) (by decide) (by rfl)]
  rfl

/-! ### Claim C10: empty streamed text persists as null -/

/-- Claim C10: a stream that reaches its finish chunk with an empty
text-delta concatenation (for example no text-delta chunk at all)
persists `outputText = null`, not the empty string: `fullText || null`
maps the empty buffer to null, so an empty streamed output is
indistinguishable from no output. -/
theorem stream_empty_text_null (params rest tg it : JVal) (lat : Int)
    (pre post : List JVal) (c : JVal)
    (hsafe : streamSafe rest = true)
    (hpre : ∀ x ∈ pre, isType x "finish" = false)
    (hfin : isType c "finish" = true)
    (hempty : textConcat pre = "") :
    (processChunks ⟨params, rest, tg, it, saveOk, lat⟩ (pre ++ c :: post)).savedRows.head?.map
        (fun r => r.outputText)
      = some JVal.null
  ∧ JVal.null ≠ JVal.str "" := by
  constructor
  · have h := processChunks_first_row params rest tg it lat pre post c hsafe hpre hfin
    rw [hempty] at h
    cases hh : (processChunks ⟨params, rest, tg, it, saveOk, lat⟩
        (pre ++ c :: post)).savedRows.head? with
    | none => rw [hh] at h; simp at h
    | some r =>
      rw [hh] at h
      simp [Prod.ext_iff] at h
      simp [h.1]
  · intro h
    cases h

/-- Witness for `stream_empty_text_null`: a reasoning-only stream. -/
theorem stream_empty_text_null_witness :
    (processChunks ⟨.obj [], .obj [], .undefined, .undefined, saveOk, 0⟩
        ([.obj [("type", .str "reasoning-delta"), ("delta", .str "think")]]
          ++ (.obj [("type", .str "finish")]) :: [])).savedRows.head?.map
        (fun r => r.outputText)
      = some JVal.null
  ∧ JVal.null ≠ JVal.str "" :=
  stream_empty_text_null (.obj []) (.obj []) .undefined .undefined 0
    [.obj [("type", .str "reasoning-delta"), ("delta", .str "think")]]
    [] (.obj [("type", .str "finish")]) (by rfl) (by decide) (by rfl) (by rfl)

/-! ### Claim C7: save fires only at finish chunks, once per finish -/

/-- Claim C7: on the streaming path the sink is driven only by finish
chunks: under a safe invocation-result shape the number of save attempts
(successful saves plus console-logged failures) equals the number of
finish chunks consumed — in particular exactly one for a well-formed
stream with a single finish chunk — and a stream with no finish chunk at
all persists nothing and attempts nothing, for ANY invocation-result
shape and sink (no partial flush, no timeout finalization). -/
theorem finish_only_persistence (params rest tg it : JVal)
    (save : LLMCallRow → Except JVal Unit) (lat : Int) (chunks : List JVal) :
    (streamSafe rest = true →
      (processChunks ⟨params, rest, tg, it, save, lat⟩ chunks).savedRows.length
        + (processChunks ⟨params, rest, tg, it, save, lat⟩ chunks).consoleErrors.length
        = countFinish chunks)
  ∧ ((∀ c ∈ chunks, isType c "finish" = false) →
      (processChunks ⟨params, rest, tg, it, save, lat⟩ chunks).savedRows = []
      ∧ (processChunks ⟨params, rest, tg, it, save, lat⟩ chunks).consoleErrors = []) := by
  constructor
  · intro hsafe
    obtain ⟨_, _, h3, _⟩ := foldl_safe ⟨params, rest, tg, it, save, lat⟩ hsafe chunks initAcc rfl
    simpa [processChunks, initAcc] using h3
  · intro hnf
    unfold processChunks
    rw [foldl_nonfinish _ chunks initAcc rfl hnf]
    exact ⟨rfl, rfl⟩

/-- Witness for `finish_only_persistence`: one save attempt for a
single-finish stream, zero rows for a stream of two text fragments that
ends without a finish chunk. -/
theorem finish_only_persistence_witness :
    ((processChunks ⟨.obj [], .obj [], .undefined, .undefined, saveOk, 0⟩
        [.obj [("type", .str "finish")]]).savedRows.length
      + (processChunks ⟨.obj [], .obj [], .undefined, .undefined, saveOk, 0⟩
          [.obj [("type", .str "finish")]]).consoleErrors.length
      = countFinish [.obj [("type", .str "finish")]])
  ∧ ((processChunks ⟨.obj [], .obj [], .undefined, .undefined, saveOk, 0⟩
        [.obj [("type", .str "text-delta"), ("delta", .str "a")],
         .obj [("type", .str "text-delta"), ("delta", .str "b")]]).savedRows = []
      ∧ (processChunks ⟨.obj [], .obj [], .undefined, .undefined, saveOk, 0⟩
          [.obj [("type", .str "text-delta"), ("delta", .str "a")],
           .obj [("type", .str "text-delta"), ("delta", .str "b")]]).consoleErrors = []) :=
  ⟨(finish_only_persistence (.obj []) (.obj []) .undefined .undefined saveOk 0
      [.obj [("type", .str "finish")]]).1 (by rfl),
   (finish_only_persistence (.obj []) (.obj []) .undefined .undefined saveOk 0
      [.obj [("type", .str "text-delta"), ("delta", .str "a")],
       .obj [("type", .str "text-delta"), ("delta", .str "b")]]).2 (by decide)⟩

/-! ### Claim C9: error chunks -/

/-- Claim C9 counterexample: the transform has no branch for chunks of
type `error`, so their payload is NOT recorded: a stream delivering an
error chunk (payload message `boom`) and then a finish chunk persists a
row whose `error` field is null, while both chunks are still delivered
(consumption is indeed not halted). -/
theorem stream_error_chunk_counterexample :
    Except.map (fun a => (a.savedRows.map (fun r => r.error), a.outChunks.length))
      (wrapStream (.obj []) (.obj []) saveOk 0
        [.obj [("type", .str "error"), ("error", .obj [("message", .str "boom")])],
         .obj [("type", .str "finish")]])
      = .ok ([JVal.null], 2) := by
  rfl

/-- Claim C9 (amended): an error chunk does not halt consumption — it is
forwarded like any other non-finish chunk and a later finish chunk still
finalizes the row (every chunk is delivered) — but its payload is
discarded: the streaming path stores `error: null` in every row it
persists. -/
theorem stream_error_chunk_behavior (params rest tg it : JVal)
    (save : LLMCallRow → Except JVal Unit) (lat : Int) (chunks : List JVal)
    (hsafe : streamSafe rest = true) :
    (∀ r ∈ (processChunks ⟨params, rest, tg, it, save, lat⟩ chunks).savedRows,
      r.error = JVal.null)
  ∧ (processChunks ⟨params, rest, tg, it, save, lat⟩ chunks).outChunks = chunks := by
  obtain ⟨h1, h2, h3, t, ht, hmem⟩ := foldl_safe ⟨params, rest, tg, it, save, lat⟩
    hsafe chunks initAcc rfl
  constructor
  · intro r hrm
    unfold processChunks at hrm
    rw [ht] at hrm
    simp only [initAcc, List.nil_append] at hrm
    exact hmem r hrm
  · simpa [processChunks, initAcc] using h2

/-- Witness for `stream_error_chunk_behavior` at the counterexample's
stream. -/
theorem stream_error_chunk_behavior_witness :
    (∀ r ∈ (processChunks ⟨.obj [], .obj [], .undefined, .undefined, saveOk, 0⟩
        [.obj [("type", .str "error"), ("error", .obj [("message", .str "boom")])],
         .obj [("type", .str "finish")]]).savedRows, r.error = JVal.null)
  ∧ (processChunks ⟨.obj [], .obj [], .undefined, .undefined, saveOk, 0⟩
        [.obj [("type", .str "error"), ("error", .obj [("message", .str "boom")])],
         .obj [("type", .str "finish")]]).outChunks
      = [.obj [("type", .str "error"), ("error", .obj [("message", .str "boom")])],
         .obj [("type", .str "finish")]] :=
  stream_error_chunk_behavior (.obj []) (.obj []) .undefined .undefined saveOk 0
    [.obj [("type", .str "error"), ("error", .obj [("message", .str "boom")])],
     .obj [("type", .str "finish")]] (by rfl)
